import Mathlib

/-!
Shallow embedding of the P05 cross-border journey-routing assistant
(src/P05/models.py, src/P05/api_service.py, src/P05/interface.py) together
with proofs about the embedded definitions.  Machine floats are modelled as
real numbers, datetimes and durations as integers, fallible calls as
Option/Except values, and printed output as lists of structured events.
-/

open Classical

/-- WGS84 coordinate pair, mirroring the pydantic model Coordinates of
models.py (the latitude/longitude fields are populated from the JSON keys
x and y through validation aliases). -/
structure Coordinates where
  type : String
  latitude : ℝ
  longitude : ℝ

/-- Transit location, mirroring the pydantic model Location of models.py.
The pydantic model declares coordinate as mandatory; the field is an Option
here so that the defensive truthiness checks written in interface.py (the
coordinate guard of the corridor filter and of calculate_distance) remain
representable.  parseLocation below embeds pydantic validation and only ever
produces locations whose coordinate is present. -/
structure Location where
  id : Int
  name : String
  score : Option Int
  coordinate : Option Coordinates
  distance : Option Int
  icon : Option String

/-- Raw coordinate record as it appears in JSON (keys type, x, y). -/
structure RawCoordinate where
  type : String
  x : ℝ
  y : ℝ

/-- Raw station record of reachable_stations.json: the offline cache
generator dumps id, name and coordinate for each reachable station; in a
hand-edited or corrupted file the coordinate may be missing. -/
structure StationRecord where
  id : Int
  name : String
  coordinate : Option RawCoordinate

/-- Pydantic validation of one station record, Location(**station).
Validation raises (ValidationError) exactly when the mandatory coordinate is
missing; the aliases map x to latitude and y to longitude. -/
def parseLocation (r : StationRecord) : Option Location :=
  match r.coordinate with
  | some c => some ⟨r.id, r.name, none, some ⟨c.type, c.x, c.y⟩, none, none⟩
  | none => none

/-- The list comprehension [Location(**station) for station in data] of
Interface.read_covered_stations: the first ValidationError aborts the whole
comprehension. -/
def parseAll : List StationRecord → Option (List Location)
  | [] => some []
  | r :: rest =>
    match parseLocation r with
    | none => none
    | some loc =>
      match parseAll rest with
      | none => none
      | some locs => some (loc :: locs)

/-- Interface.read_covered_stations.  The argument none models a missing or
undecodable reachable_stations.json (or a non-list payload), for which the
method returns [].  A ValidationError raised while building the Location list
is caught by the blanket except branch, which also returns []. -/
def read_covered_stations (data : Option (List StationRecord)) : List Location :=
  match data with
  | none => []
  | some records =>
    match parseAll records with
    | none => []
    | some locs => locs

/-- math.radians. -/
noncomputable def radians (d : ℝ) : ℝ := d * Real.pi / 180

/-- math.degrees. -/
noncomputable def degrees (r : ℝ) : ℝ := r * 180 / Real.pi

/-- math.atan2 x y: the angle of the point (y, x) in the plane, in (-pi, pi]. -/
noncomputable def atan2 (x y : ℝ) : ℝ := Complex.arg ⟨y, x⟩

/-- Python float modulo a % b: floored modulo, so for b > 0 the result lies
in [0, b) whatever the sign of a. -/
noncomputable def pymod (a b : ℝ) : ℝ := a - b * (⌊a / b⌋ : ℝ)

/-- Interface.bearing, stated on the coordinate values of the two locations
(the Python method dereferences origin.coordinate and destination.coordinate
directly; every caller passes locations whose coordinate is present). -/
noncomputable def bearing (origin destination : Coordinates) : ℝ :=
  let lat1 := radians origin.latitude
  let lon1 := radians origin.longitude
  let lat2 := radians destination.latitude
  let lon2 := radians destination.longitude
  let d_lon := lon2 - lon1
  let x := Real.cos lat2 * Real.sin d_lon
  let y := Real.cos lat1 * Real.sin lat2 - Real.sin lat1 * Real.cos lat2 * Real.cos d_lon
  pymod (degrees (atan2 x y) + 360) 360

/-- Interface.angular_deviation. -/
noncomputable def angular_deviation (origin destination candidate : Coordinates) : ℝ :=
  let b_od := bearing origin destination
  let b_oc := bearing origin candidate
  min |b_od - b_oc| (360 - |b_od - b_oc|)

lemma pymod_nonneg (a b : ℝ) (hb : 0 < b) : 0 ≤ pymod a b := by
  have h1 : (⌊a / b⌋ : ℝ) ≤ a / b := Int.floor_le _
  have h2 : b * (⌊a / b⌋ : ℝ) ≤ b * (a / b) := mul_le_mul_of_nonneg_left h1 hb.le
  have h3 : b * (a / b) = a := by field_simp
  unfold pymod
  linarith

lemma pymod_lt (a b : ℝ) (hb : 0 < b) : pymod a b < b := by
  have h1 : a / b < (⌊a / b⌋ : ℝ) + 1 := Int.lt_floor_add_one _
  have h2 : a < ((⌊a / b⌋ : ℝ) + 1) * b := (div_lt_iff₀ hb).mp h1
  unfold pymod
  nlinarith

lemma bearing_nonneg (o d : Coordinates) : 0 ≤ bearing o d := by
  simp only [bearing]
  exact pymod_nonneg _ 360 (by norm_num)

lemma bearing_lt_360 (o d : Coordinates) : bearing o d < 360 := by
  simp only [bearing]
  exact pymod_lt _ 360 (by norm_num)

lemma abs_bearing_sub_lt_360 (o d c : Coordinates) :
    |bearing o d - bearing o c| < 360 := by
  have h1 := bearing_nonneg o d
  have h2 := bearing_lt_360 o d
  have h3 := bearing_nonneg o c
  have h4 := bearing_lt_360 o c
  exact abs_lt.mpr ⟨by linarith, by linarith⟩

lemma angular_deviation_nonneg (o d c : Coordinates) :
    0 ≤ angular_deviation o d c := by
  simp only [angular_deviation]
  have h := abs_bearing_sub_lt_360 o d c
  exact le_min (abs_nonneg _) (by linarith)

lemma angular_deviation_le_180 (o d c : Coordinates) :
    angular_deviation o d c ≤ 180 := by
  simp only [angular_deviation]
  rcases le_or_lt |bearing o d - bearing o c| 180 with h | h
  · exact (min_le_left _ _).trans h
  · exact (min_le_right _ _).trans (by linarith)

lemma angular_deviation_self (o d : Coordinates) :
    angular_deviation o d d = 0 := by
  simp only [angular_deviation, sub_self, abs_zero, sub_zero]
  exact min_eq_left (by norm_num)

/-- C8: for every origin O, destination D and candidate C with coordinates,
angular_deviation(O, D, C) lies in [0, 180], and angular_deviation(O, D, D)
equals 0. -/
theorem c8_angular_deviation_range_and_self (O D C : Coordinates) :
    0 ≤ angular_deviation O D C ∧ angular_deviation O D C ≤ 180 ∧
      angular_deviation O D D = 0 :=
  ⟨angular_deviation_nonneg O D C, angular_deviation_le_180 O D C,
    angular_deviation_self O D⟩

/-- Timestamps of models.py (pydantic datetime fields), abstracted to an
integer epoch value: the program never computes with them, it only stores
and prints them. -/
abbrev DateTime := Int

/-- Durations of models.py (pydantic timedelta), likewise abstracted. -/
abbrev Duration := Int

/-- The nested model Connection.From of models.py: station, departure,
delay, platform (platform is mandatory on the departure side). -/
structure ConnectionFrom where
  station : Location
  departure : DateTime
  delay : Option Int
  platform : String

/-- The nested model Connection.To of models.py: station, arrival, delay,
platform (platform is optional on the arrival side). -/
structure ConnectionTo where
  station : Location
  arrival : DateTime
  delay : Option Int
  platform : Option String

/-- The model Connection of models.py; the JSON key "from" is mapped to the
field from_ by alias, as in the Python code. -/
structure Connection where
  from_ : ConnectionFrom
  «to» : ConnectionTo
  duration : Duration

/-- One provider entry of local_providers.json. -/
structure Provider where
  name : String
  url : String

/-- A forward-geocoding hit returned by geopy's Nominatim geocode. -/
structure GeoPoint where
  latitude : ℝ
  longitude : ℝ

/-- One HTTP response from the transit connections endpoint: its status code
and its parsed body.  body = none models an unparsable body (resp.json()
raises); body = some l models a well-formed body whose "connections" value is
the list l (a missing key and an empty list are both falsy for data.get and
are both modelled by []). -/
structure HttpResponse where
  status : Nat
  body : Option (List Connection)

/-- Failure of the HTTP layer itself: the retry budget of the mounted
HTTPAdapter is exhausted. -/
inductive NetworkFailure where
  | retriesExhausted

/-- The distinct failures get_next_connection can surface: a requests
exception from the session (network failure), an HTTPError raised by
raise_for_status, or a JSON decoding error from resp.json(). -/
inductive ApiError where
  | network (e : NetworkFailure)
  | httpError (status : Nat)
  | parseError

/-- The status_forcelist of the urllib3 Retry configured in
ApiService.__init__. -/
def status_forcelist : List Nat := [500, 502, 503, 504]

/-- The default retry budget of ApiService.__init__ (retries: int = 5). -/
def retriesDefault : Nat := 5

/-- The backoff_factor of the urllib3 Retry configured in
ApiService.__init__. -/
def backoff_factor : ℚ := 1 / 10

/-- Modelled from urllib3's Retry.get_backoff_time as configured by
ApiService.__init__: the sleep before retry number n (n counted from 1) is
backoff_factor * 2 ^ (n - 1), an exponential backoff. -/
def get_backoff_time (consecutive_errors : Nat) : ℚ :=
  backoff_factor * 2 ^ (consecutive_errors - 1)

/-- One session.get against the connections endpoint with the mounted retry
adapter: responses n is the server's answer to the n-th request of this call
(the same GET each time).  A response whose status is in status_forcelist is
retried while retry budget remains; when the budget is exhausted the adapter
raises (MaxRetryError, surfaced as a requests exception), modelled as a
NetworkFailure.  Any other response is returned as-is. -/
def sessionGet (responses : Nat → HttpResponse) : Nat → Nat →
    Except NetworkFailure HttpResponse
  | 0, attempt =>
    let r := responses attempt
    if r.status ∈ status_forcelist then Except.error NetworkFailure.retriesExhausted
    else Except.ok r
  | retriesLeft + 1, attempt =>
    let r := responses attempt
    if r.status ∈ status_forcelist then sessionGet responses retriesLeft (attempt + 1)
    else Except.ok r

/-- The tail of ApiService.get_next_connection after session.get returns:
resp.raise_for_status() raises HTTPError for any 4xx/5xx status, resp.json()
raises for an unparsable body, and data.get("connections") being truthy
decides between the first connection and None. -/
def handle_response (resp : Except NetworkFailure HttpResponse) :
    Except ApiError (Option Connection) :=
  match resp with
  | Except.error e => Except.error (ApiError.network e)
  | Except.ok r =>
    if 400 ≤ r.status then Except.error (ApiError.httpError r.status)
    else
      match r.body with
      | none => Except.error ApiError.parseError
      | some [] => Except.ok none
      | some (c :: _) => Except.ok (some c)

/-- ApiService.get_next_connection: one GET through the retrying session,
then status check and body parsing. -/
def get_next_connection (responses : Nat → HttpResponse) (retries : Nat) :
    Except ApiError (Option Connection) :=
  handle_response (sessionGet responses retries 0)

/-- The corridor filter loop of
Interface.get_intermediate_connections_by_bearing: walk the cached stations
in order, skip a station whose coordinate is absent, and keep a station
exactly when its angular deviation from the origin-to-destination bearing is
at most 20 degrees.  The structural recursion reproduces the loop's append
order. -/
noncomputable def connection_stations (oc dc : Coordinates) :
    List Location → List Location
  | [] => []
  | s :: rest =>
    match s.coordinate with
    | some c =>
      if angular_deviation oc dc c ≤ 20 then s :: connection_stations oc dc rest
      else connection_stations oc dc rest
    | none => connection_stations oc dc rest

/-- The probe loop of Interface.get_intermediate_connections_by_bearing with
an infallible API client: query each kept station in order from the origin's
name and collect the connections that are returned. -/
def probe_connections (api : String → String → Option Connection)
    (origin_name : String) : List Location → List Connection
  | [] => []
  | station :: rest =>
    match api origin_name station.name with
    | some conn => conn :: probe_connections api origin_name rest
    | none => probe_connections api origin_name rest

/-- Interface.get_intermediate_connections_by_bearing, stated on the names
and coordinates its body dereferences (origin_obj.name,
origin_obj.coordinate, destination_obj.coordinate): corridor filter, then
probe loop. -/
noncomputable def get_intermediate_connections_by_bearing
    (api : String → String → Option Connection) (origin_name : String)
    (oc dc : Coordinates) (covered : List Location) : List Connection :=
  probe_connections api origin_name (connection_stations oc dc covered)

/-- The probe loop with a fallible API client: get_next_connection may raise
(network failure or HTTPError).  The loop body of
Interface.get_intermediate_connections_by_bearing contains no try/except, so
an exception raised while probing one candidate propagates immediately and
the remaining candidates are never probed. -/
def probe_connections_exc
    (api : String → String → Except ApiError (Option Connection))
    (origin_name : String) : List Location → Except ApiError (List Connection)
  | [] => Except.ok []
  | station :: rest =>
    match api origin_name station.name with
    | Except.error e => Except.error e
    | Except.ok (some conn) =>
      match probe_connections_exc api origin_name rest with
      | Except.error e => Except.error e
      | Except.ok conns => Except.ok (conn :: conns)
    | Except.ok none => probe_connections_exc api origin_name rest

/-- Interface.get_intermediate_connections_by_bearing with a fallible API
client. -/
noncomputable def get_intermediate_connections_by_bearing_exc
    (api : String → String → Except ApiError (Option Connection))
    (origin_name : String) (oc dc : Coordinates) (covered : List Location) :
    Except ApiError (List Connection) :=
  probe_connections_exc api origin_name (connection_stations oc dc covered)

/-- The destination-resolution chain of Interface.execute: first
ApiService.get_location; if that is absent, geopy's forward geocode; on a
geocoding hit a Location is synthesized with the placeholder id -1 and the
returned coordinates (type WGS84); if both fail, resolution fails. -/
def resolve_destination (get_location : String → Option Location)
    (geocode : String → Option GeoPoint) (destination_name : String) :
    Option Location :=
  match get_location destination_name with
  | some loc => some loc
  | none =>
    match geocode destination_name with
    | some geo_location =>
      some ⟨-1, destination_name, none,
        some ⟨"WGS84", geo_location.latitude, geo_location.longitude⟩, none, none⟩
    | none => none

/-- Interface._calculate_distance: 0.0 when either location or either
coordinate is absent, otherwise the geodesic distance in km computed by
geopy (passed in as the geodesic argument, it is an external library). -/
def calculate_distance (geodesic : Coordinates → Coordinates → ℝ) :
    Option Location → Option Location → ℝ
  | some loc1, some loc2 =>
    match loc1.coordinate, loc2.coordinate with
    | some c1, some c2 => geodesic c1 c2
    | _, _ => 0
  | _, _ => 0

/-- The percentage expression of Interface._display_connection_option:
covered_distance / total_distance * 100 if total_distance > 0 else 0. -/
noncomputable def percentageOf (covered_distance total_distance : ℝ) : ℝ :=
  if total_distance > 0 then covered_distance / total_distance * 100 else 0

/-- One printed line of a connection option block, with the data it shows. -/
inductive Line where
  | header (option_index : Nat) (is_direct : Bool) (via : String)
  | travel (fromName toName : String)
  | departure (time : DateTime) (platformShown : String)
  | arrival (time : DateTime)
  | durationLine (d : Duration)
  | coverage (km pct : ℝ)
  | nextStepIntro (destName : String)
  | nextStepProvider (stationName providerName url : String)
  | nextStepFailed (stationName : String)
  | footer

/-- Recognizes the coverage line of a block. -/
def isCoverageLine : Line → Bool
  | Line.coverage _ _ => true
  | _ => false

/-- Recognizes any of the next-step lines of a block (the intro line, the
provider line, or the provider-lookup-failed line). -/
def isNextStepLine : Line → Bool
  | Line.nextStepIntro _ => true
  | Line.nextStepProvider _ _ _ => true
  | Line.nextStepFailed _ => true
  | _ => false

/-- Recognizes the next-step line that names a provider. -/
def isProviderLine : Line → Bool
  | Line.nextStepProvider _ _ _ => true
  | _ => false

/-- Recognizes the provider-lookup-failed next-step line. -/
def isProviderFailedLine : Line → Bool
  | Line.nextStepFailed _ => true
  | _ => false

/-- Interface._display_connection_option as the list of lines it prints.
get_local_provider stands for the Interface method of the same name (a
reverse-geocode plus table lookup against external services); the Python
expression conn.from_.platform or 'N/A' shows N/A exactly when the mandatory
platform string is empty. -/
noncomputable def display_connection_option
    (geodesic : Coordinates → Coordinates → ℝ)
    (get_local_provider : Location → Option Provider) (conn : Connection)
    (option_index : Nat) (origin_obj destination_obj : Location)
    (total_distance : ℝ) (is_direct : Bool) : List Line :=
  let intermediate_station := conn.to.station
  let covered_distance :=
    calculate_distance geodesic (some origin_obj) (some intermediate_station)
  let percentage := percentageOf covered_distance total_distance
  [Line.header option_index is_direct intermediate_station.name,
   Line.travel conn.from_.station.name intermediate_station.name,
   Line.departure conn.from_.departure
     (if conn.from_.platform = "" then "N/A" else conn.from_.platform),
   Line.arrival conn.to.arrival,
   Line.durationLine conn.duration]
  ++ (if is_direct = false ∧ total_distance > 0 then
        [Line.coverage covered_distance percentage]
      else [])
  ++ (if is_direct = false then
        Line.nextStepIntro destination_obj.name ::
        (match get_local_provider intermediate_station with
         | some provider =>
           [Line.nextStepProvider intermediate_station.name provider.name provider.url]
         | none => [Line.nextStepFailed intermediate_station.name])
      else [])
  ++ [Line.footer]

/-- One printed event of Interface.execute, with the data it shows. -/
inductive OutputEvent where
  | cannotProceed
  | originNotFound (name : String)
  | destNotFoundInfo (name : String)
  | geoFoundInfo (name : String)
  | geoNotFoundError (name : String)
  | searching
  | directFound
  | noDirectSearching
  | noSuitableIntermediate
  | possibleIntermediate
  | totalDistanceInfo (km : ℝ)
  | optionBlock (lines : List Line)

/-- The presentation tail of Interface.execute: the total-distance line when
the total distance is positive, then one option block per connection, indexed
from 1 in list order. -/
noncomputable def present_connections
    (geodesic : Coordinates → Coordinates → ℝ)
    (get_local_provider : Location → Option Provider)
    (origin_obj destination_obj : Location) (conns : List Connection)
    (is_direct : Bool) : List OutputEvent :=
  let total_distance :=
    calculate_distance geodesic (some origin_obj) (some destination_obj)
  (if total_distance > 0 then [OutputEvent.totalDistanceInfo total_distance] else [])
  ++ conns.enum.map (fun p =>
      OutputEvent.optionBlock
        (display_connection_option geodesic get_local_provider p.2 (p.1 + 1)
          origin_obj destination_obj total_distance is_direct))

/-- The search phase of Interface.execute, after both endpoints are
resolved: try the direct connection; if present display it as the single
direct option, otherwise run the corridor search, print the explicit
no-suitable-connections message when it comes back empty, and otherwise
display every intermediate option. -/
noncomputable def search_and_present
    (api : String → String → Option Connection)
    (get_local_provider : Location → Option Provider)
    (geodesic : Coordinates → Coordinates → ℝ) (covered : List Location)
    (origin_obj destination_obj : Location) (destination_name : String) :
    List OutputEvent :=
  OutputEvent.searching ::
  match api origin_obj.name destination_name with
  | some direct_connection =>
    OutputEvent.directFound ::
    present_connections geodesic get_local_provider origin_obj destination_obj
      [direct_connection] true
  | none =>
    OutputEvent.noDirectSearching ::
    match origin_obj.coordinate, destination_obj.coordinate with
    | some oc, some dc =>
      match get_intermediate_connections_by_bearing api origin_obj.name oc dc covered with
      | [] => [OutputEvent.noSuitableIntermediate]
      | c :: cs =>
        OutputEvent.possibleIntermediate ::
        present_connections geodesic get_local_provider origin_obj destination_obj
          (c :: cs) false
    | _, _ => [OutputEvent.noSuitableIntermediate]

/-- Interface.execute as the list of events it prints.  The session aborts
with a data-error message when the station cache is empty, then resolves the
origin through the transit API only, then resolves the destination through
the transit API with the geocoder as fallback (synthesizing the
placeholder-id Location, as in resolve_destination), and finally searches
and presents.  The catch-all coordinate branch inside search_and_present is
never reached by this function: the API client and the geocoding fallback
only produce locations whose coordinate is present. -/
noncomputable def execute (get_location : String → Option Location)
    (geocode : String → Option GeoPoint)
    (api : String → String → Option Connection)
    (get_local_provider : Location → Option Provider)
    (geodesic : Coordinates → Coordinates → ℝ)
    (covered_stations : List Location) (origin_name destination_name : String) :
    List OutputEvent :=
  match covered_stations with
  | [] => [OutputEvent.cannotProceed]
  | _ :: _ =>
    match get_location origin_name with
    | none => [OutputEvent.originNotFound origin_name]
    | some origin_obj =>
      match get_location destination_name with
      | some destination_obj =>
        search_and_present api get_local_provider geodesic covered_stations
          origin_obj destination_obj destination_name
      | none =>
        match geocode destination_name with
        | some geo_location =>
          OutputEvent.destNotFoundInfo destination_name ::
          OutputEvent.geoFoundInfo destination_name ::
          search_and_present api get_local_provider geodesic covered_stations
            origin_obj
            ⟨-1, destination_name, none,
              some ⟨"WGS84", geo_location.latitude, geo_location.longitude⟩,
              none, none⟩
            destination_name
        | none =>
          [OutputEvent.destNotFoundInfo destination_name,
           OutputEvent.geoNotFoundError destination_name]

lemma mem_connection_stations (oc dc : Coordinates) (covered : List Location)
    (s : Location) :
    s ∈ connection_stations oc dc covered ↔
      s ∈ covered ∧ ∃ c, s.coordinate = some c ∧ angular_deviation oc dc c ≤ 20 := by
  induction covered with
  | nil => simp [connection_stations]
  | cons a rest ih =>
    cases hc : a.coordinate with
    | none =>
      simp only [connection_stations, hc]
      constructor
      · intro h
        rcases ih.mp h with ⟨hm, hp⟩
        exact ⟨List.mem_cons_of_mem _ hm, hp⟩
      · rintro ⟨hm, c, hcs, hdev⟩
        rcases List.mem_cons.mp hm with rfl | hm2
        · rw [hc] at hcs
          exact Option.noConfusion hcs
        · exact ih.mpr ⟨hm2, c, hcs, hdev⟩
    | some c0 =>
      simp only [connection_stations, hc]
      by_cases hdev : angular_deviation oc dc c0 ≤ 20
      · rw [if_pos hdev]
        constructor
        · intro h
          rcases List.mem_cons.mp h with rfl | h2
          · exact ⟨List.mem_cons_self _ _, c0, hc, hdev⟩
          · rcases ih.mp h2 with ⟨hm, hp⟩
            exact ⟨List.mem_cons_of_mem _ hm, hp⟩
        · rintro ⟨hm, c, hcs, hdev2⟩
          rcases List.mem_cons.mp hm with rfl | hm2
          · exact List.mem_cons_self _ _
          · exact List.mem_cons_of_mem _ (ih.mpr ⟨hm2, c, hcs, hdev2⟩)
      · rw [if_neg hdev]
        constructor
        · intro h
          rcases ih.mp h with ⟨hm, hp⟩
          exact ⟨List.mem_cons_of_mem _ hm, hp⟩
        · rintro ⟨hm, c, hcs, hdev2⟩
          rcases List.mem_cons.mp hm with rfl | hm2
          · rw [hc] at hcs
            injection hcs with h3
            rw [h3] at hdev
            exact absurd hdev2 hdev
          · exact ih.mpr ⟨hm2, c, hcs, hdev2⟩

lemma connection_stations_sublist (oc dc : Coordinates) (covered : List Location) :
    List.Sublist (connection_stations oc dc covered) covered := by
  induction covered with
  | nil => exact List.nil_sublist _
  | cons a rest ih =>
    cases hc : a.coordinate with
    | none =>
      simp only [connection_stations, hc]
      exact List.Sublist.cons a ih
    | some c0 =>
      simp only [connection_stations, hc]
      by_cases hdev : angular_deviation oc dc c0 ≤ 20
      · rw [if_pos hdev]
        exact List.Sublist.cons₂ a ih
      · rw [if_neg hdev]
        exact List.Sublist.cons a ih

lemma probe_connections_eq_filterMap (api : String → String → Option Connection)
    (origin_name : String) (stations : List Location) :
    probe_connections api origin_name stations =
      stations.filterMap (fun st => api origin_name st.name) := by
  induction stations with
  | nil => rfl
  | cons a rest ih =>
    cases ha : api origin_name a.name with
    | some conn => simp [probe_connections, ha, List.filterMap_cons, ih]
    | none => simp [probe_connections, ha, List.filterMap_cons, ih]

/-- C1: the corridor filter keeps a cached candidate exactly when its angular
deviation from the origin-to-destination bearing is at most 20 degrees, a
candidate whose coordinate is absent is always excluded (its membership would
require some coordinate), the kept candidates appear in cache iteration
order (a sublist of the cache), and the resulting connection list is exactly
the in-order probe of the kept candidates with no further ranking. -/
theorem c1_corridor_inclusion_and_order (oc dc : Coordinates)
    (covered : List Location) (api : String → String → Option Connection)
    (origin_name : String) :
    (∀ s, s ∈ connection_stations oc dc covered ↔
        s ∈ covered ∧ ∃ c, s.coordinate = some c ∧ angular_deviation oc dc c ≤ 20) ∧
    List.Sublist (connection_stations oc dc covered) covered ∧
    get_intermediate_connections_by_bearing api origin_name oc dc covered =
      (connection_stations oc dc covered).filterMap
        (fun st => api origin_name st.name) :=
  ⟨fun s => mem_connection_stations oc dc covered s,
   connection_stations_sublist oc dc covered,
   probe_connections_eq_filterMap api origin_name (connection_stations oc dc covered)⟩

/-- C3 is false on the code as a claim about every input place name: when
the transit API does not know the origin name, the session aborts with the
origin-not-found error without calling the geocoder or synthesizing a
sentinel Location, even though the geocoder oracle of this run would resolve
every name; no geocoding info event appears in the trace. -/
theorem c3_counterexample :
    execute (fun _ => none) (fun _ => some ⟨46, 8⟩) (fun _ _ => none)
        (fun _ => none) (fun _ _ => 0) [⟨3, "S", none, none, none, none⟩]
        "Zuerich HB" "Lyon" = [OutputEvent.originNotFound "Zuerich HB"] ∧
    OutputEvent.geoFoundInfo "Zuerich HB" ∉
      execute (fun _ => none) (fun _ => some ⟨46, 8⟩) (fun _ _ => none)
        (fun _ => none) (fun _ _ => 0) [⟨3, "S", none, none, none, none⟩]
        "Zuerich HB" "Lyon" := by
  refine ⟨rfl, ?_⟩
  intro h
  rw [show execute (fun _ => none) (fun _ => some ⟨46, 8⟩) (fun _ _ => none)
      (fun _ => none) (fun _ _ => 0) [⟨3, "S", none, none, none, none⟩]
      "Zuerich HB" "Lyon" = [OutputEvent.originNotFound "Zuerich HB"] from rfl] at h
  simp at h

/-- C3 amended: only the destination has the fallback chain.  Destination
resolution asks the transit API first and returns its hit unchanged; when
the transit API has no hit and the geocoder returns coordinates, a Location
with the sentinel id -1 and those coordinates is synthesized; every
candidate the corridor search keeps (hence every station it probes) comes
from the cached candidate list, so a synthesized sentinel Location, which is
never in the cache, is never offered as a via-station candidate; and for the
origin there is no fallback: when the transit API has no hit for the origin
name the session aborts with the origin-not-found error, consulting neither
the geocoder nor a sentinel. -/
theorem c3_amended_destination_fallback_origin_abort
    (get_location : String → Option Location) (geocode : String → Option GeoPoint)
    (destination_name origin_name : String) (loc : Location) (g : GeoPoint)
    (oc dc : Coordinates) (covered : List Location)
    (api : String → String → Option Connection)
    (get_local_provider : Location → Option Provider)
    (geodesic : Coordinates → Coordinates → ℝ) (s : Location)
    (rest : List Location) :
    (get_location destination_name = some loc →
      resolve_destination get_location geocode destination_name = some loc) ∧
    (get_location destination_name = none → geocode destination_name = some g →
      resolve_destination get_location geocode destination_name =
        some ⟨-1, destination_name, none,
          some ⟨"WGS84", g.latitude, g.longitude⟩, none, none⟩) ∧
    List.Sublist (connection_stations oc dc covered) covered ∧
    (get_location origin_name = none →
      execute get_location geocode api get_local_provider geodesic (s :: rest)
        origin_name destination_name =
          [OutputEvent.originNotFound origin_name]) := by
  refine ⟨?_, ?_, connection_stations_sublist oc dc covered, ?_⟩
  · intro h
    simp [resolve_destination, h]
  · intro h1 h2
    simp [resolve_destination, h1, h2]
  · intro h
    simp [execute, h]

/-- Witness for the amended C3 at concrete inputs: a transit API that misses
everything makes the destination resolve to the sentinel-id Location built
from the geocoder's coordinates, and makes the session abort on the origin
without geocoding it. -/
theorem c3_amended_witness :
    resolve_destination (fun _ => none) (fun _ => some ⟨46, 8⟩) "Lugano" =
      some ⟨-1, "Lugano", none, some ⟨"WGS84", 46, 8⟩, none, none⟩ ∧
    execute (fun _ => none) (fun _ => some ⟨46, 8⟩) (fun _ _ => none)
        (fun _ => none) (fun _ _ => 0) [⟨3, "S", none, none, none, none⟩]
        "O" "Lugano" = [OutputEvent.originNotFound "O"] :=
  ⟨(c3_amended_destination_fallback_origin_abort (fun _ => none)
      (fun _ => some ⟨46, 8⟩) "Lugano" "O" ⟨0, "", none, none, none, none⟩
      ⟨46, 8⟩ ⟨"WGS84", 0, 0⟩ ⟨"WGS84", 0, 0⟩ [] (fun _ _ => none) (fun _ => none)
      (fun _ _ => 0) ⟨3, "S", none, none, none, none⟩ []).2.1 rfl rfl,
   (c3_amended_destination_fallback_origin_abort (fun _ => none)
      (fun _ => some ⟨46, 8⟩) "Lugano" "O" ⟨0, "", none, none, none, none⟩
      ⟨46, 8⟩ ⟨"WGS84", 0, 0⟩ ⟨"WGS84", 0, 0⟩ [] (fun _ _ => none) (fun _ => none)
      (fun _ _ => 0) ⟨3, "S", none, none, none, none⟩ []).2.2.2 rfl⟩

/-- C4: get_next_connection returns absent (ok none) exactly when the HTTP
response is well-formed (no network failure, status below 400, parsable
body) and its connection list is empty; a client error surfaces an HTTPError
and an unparsable body surfaces a JSON decoding error, both distinct
failures rather than absent. -/
theorem c4_absent_exactly_on_empty_list (resp : Except NetworkFailure HttpResponse) :
    (handle_response resp = Except.ok none ↔
      ∃ r, resp = Except.ok r ∧ r.status < 400 ∧ r.body = some []) ∧
    (∀ r, resp = Except.ok r → 400 ≤ r.status →
      handle_response resp = Except.error (ApiError.httpError r.status)) ∧
    (∀ r, resp = Except.ok r → r.status < 400 → r.body = none →
      handle_response resp = Except.error ApiError.parseError) := by
  cases resp with
  | error e =>
    refine ⟨?_, ?_, ?_⟩
    · simp [handle_response]
    · intro r h
      exact Except.noConfusion h
    · intro r h
      exact Except.noConfusion h
  | ok r =>
    by_cases h4 : 400 ≤ r.status
    · refine ⟨?_, ?_, ?_⟩
      · rw [handle_response, if_pos h4]
        constructor
        · intro h
          exact Except.noConfusion h
        · rintro ⟨r2, hr, hlt, _⟩
          injection hr with hr
          subst hr
          omega
      · intro r2 hr _
        injection hr with hr
        subst hr
        rw [handle_response, if_pos h4]
      · intro r2 hr hlt _
        injection hr with hr
        subst hr
        omega
    · have h4lt : r.status < 400 := Nat.lt_of_not_le h4
      refine ⟨?_, ?_, ?_⟩
      · rw [handle_response, if_neg h4]
        cases hb : r.body with
        | none =>
          constructor
          · intro h
            exact Except.noConfusion h
          · rintro ⟨r2, hr, _, hbody⟩
            injection hr with hr
            subst hr
            rw [hb] at hbody
            exact Option.noConfusion hbody
        | some l =>
          cases l with
          | nil => simp [hb, h4lt]
          | cons c cs =>
            constructor
            · intro h
              injection h with h
              exact Option.noConfusion h
            · rintro ⟨r2, hr, _, hbody⟩
              injection hr with hr
              subst hr
              rw [hb] at hbody
              injection hbody with hbody
              exact List.noConfusion hbody
      · intro r2 hr hge
        injection hr with hr
        subst hr
        omega
      · intro r2 hr _ hbody
        injection hr with hr
        subst hr
        rw [handle_response, if_neg h4, hbody]

/-- Witness for C4 at concrete inputs: a 404 surfaces an HTTPError, an
unparsable 200 body surfaces a JSON decoding error, and a well-formed 200
body with an empty connection list returns absent. -/
theorem c4_witness :
    handle_response (Except.ok ⟨404, some []⟩) =
      Except.error (ApiError.httpError 404) ∧
    handle_response (Except.ok ⟨200, none⟩) = Except.error ApiError.parseError ∧
    handle_response (Except.ok ⟨200, some []⟩) = Except.ok none :=
  ⟨(c4_absent_exactly_on_empty_list (Except.ok ⟨404, some []⟩)).2.1 _ rfl (by norm_num),
   (c4_absent_exactly_on_empty_list (Except.ok ⟨200, none⟩)).2.2 _ rfl (by norm_num) rfl,
   ((c4_absent_exactly_on_empty_list (Except.ok ⟨200, some []⟩)).1).mpr
     ⟨⟨200, some []⟩, rfl, by norm_num, rfl⟩⟩

/-- C5 is false on the code for an arbitrary 5xx status: 501 is a
server-side status outside the configured status_forcelist, so a 501
response is not retried at all; even though the very next request would
receive a 200, get_next_connection surfaces an immediate HTTPError for the
first response instead of retrying toward a network failure. -/
theorem c5_counterexample :
    get_next_connection
        (fun n => if n = 0 then ⟨501, some []⟩ else ⟨200, some []⟩)
        retriesDefault = Except.error (ApiError.httpError 501) ∧
    501 ∉ status_forcelist := by
  exact ⟨rfl, by decide⟩

/-- C5 amended: only a status in the configured forcelist (500, 502, 503,
504) is retried: a forcelisted response consumes one unit of the budget and
the same GET is reissued, an exhausted budget on a forcelisted response
surfaces a network failure, and any non-forcelisted response (for example a
501) is returned immediately without retrying; the budget is 5, at least 3;
three consecutive 503 responses followed by a 200 yield the parsed
connection within the budget; always answering 503 exhausts the budget into
a network failure; and the configured backoff doubles from each retry to the
next, an exponential backoff with factor 0.1. -/
theorem c5_amended_forcelist_retry_and_backoff
    (c : Connection) (responses : Nat → HttpResponse) (n attempt : Nat) :
    ((responses attempt).status ∈ status_forcelist →
      sessionGet responses (n + 1) attempt = sessionGet responses n (attempt + 1)) ∧
    ((responses attempt).status ∈ status_forcelist →
      sessionGet responses 0 attempt =
        Except.error NetworkFailure.retriesExhausted) ∧
    ((responses attempt).status ∉ status_forcelist →
      sessionGet responses n attempt = Except.ok (responses attempt)) ∧
    get_next_connection
        (fun k => if k < 3 then ⟨503, some []⟩ else ⟨200, some [c]⟩)
        retriesDefault = Except.ok (some c) ∧
    get_next_connection (fun _ => ⟨503, some []⟩) retriesDefault =
      Except.error (ApiError.network NetworkFailure.retriesExhausted) ∧
    3 ≤ retriesDefault ∧
    (∀ k : Nat, get_backoff_time (k + 2) = 2 * get_backoff_time (k + 1)) := by
  refine ⟨?_, ?_, ?_, rfl, rfl, by norm_num [retriesDefault], ?_⟩
  · intro h
    simp only [sessionGet]
    rw [if_pos h]
  · intro h
    simp only [sessionGet]
    rw [if_pos h]
  · intro h
    cases n with
    | zero =>
      simp only [sessionGet]
      rw [if_neg h]
    | succ m =>
      simp only [sessionGet]
      rw [if_neg h]
  · intro k
    simp only [get_backoff_time, Nat.add_sub_cancel]
    have h2 : k + 2 - 1 = k + 1 := by omega
    rw [h2, pow_succ]
    ring

/-- Witness for the amended C5 at concrete inputs: a 503 consumes one retry
and reissues the GET, while a 501 is returned immediately without
retrying. -/
theorem c5_amended_witness :
    sessionGet (fun _ => ⟨503, some []⟩) 5 0 =
      sessionGet (fun _ => ⟨503, some []⟩) 4 1 ∧
    sessionGet (fun _ => ⟨501, some []⟩) 5 0 = Except.ok ⟨501, some []⟩ :=
  ⟨(c5_amended_forcelist_retry_and_backoff
      ⟨⟨⟨0, "", none, none, none, none⟩, 0, none, ""⟩,
       ⟨⟨0, "", none, none, none, none⟩, 0, none, none⟩, 0⟩
      (fun _ => ⟨503, some []⟩) 4 0).1 (by decide),
   (c5_amended_forcelist_retry_and_backoff
      ⟨⟨⟨0, "", none, none, none, none⟩, 0, none, ""⟩,
       ⟨⟨0, "", none, none, none, none⟩, 0, none, none⟩, 0⟩
      (fun _ => ⟨501, some []⟩) 5 0).2.2.1 (by decide)⟩

lemma parseLocation_coord_isSome (r : StationRecord) (loc : Location)
    (h : parseLocation r = some loc) : loc.coordinate.isSome = true := by
  cases hc : r.coordinate with
  | none =>
    rw [parseLocation, hc] at h
    exact Option.noConfusion h
  | some c =>
    rw [parseLocation, hc] at h
    injection h with h
    rw [← h]
    rfl

lemma parseAll_fails (rBad : StationRecord) (pre post : List StationRecord)
    (h : parseLocation rBad = none) : parseAll (pre ++ rBad :: post) = none := by
  induction pre with
  | nil => simp [parseAll, h]
  | cons a pre2 ih =>
    simp only [List.cons_append, parseAll]
    cases hpa : parseLocation a with
    | none => rfl
    | some loc => simp [ih]

lemma parseAll_coords (records : List StationRecord) (locs : List Location)
    (h : parseAll records = some locs) :
    ∀ s ∈ locs, s.coordinate.isSome = true := by
  induction records generalizing locs with
  | nil =>
    rw [parseAll] at h
    injection h with h
    subst h
    intro s hs
    exact absurd hs (List.not_mem_nil s)
  | cons r rest ih =>
    rw [parseAll] at h
    cases hr : parseLocation r with
    | none =>
      rw [hr] at h
      exact Option.noConfusion h
    | some loc =>
      rw [hr] at h
      cases hrest : parseAll rest with
      | none =>
        rw [hrest] at h
        exact Option.noConfusion h
      | some locs2 =>
        rw [hrest] at h
        injection h with h
        subst h
        intro s hs
        rcases List.mem_cons.mp hs with rfl | hs2
        · exact parseLocation_coord_isSome r s hr
        · exact ih locs2 hrest s hs2

/-- C10: pydantic makes the coordinate mandatory, so every Location produced
by validation has a coordinate present; one cache record that fails
validation (for example one lacking a coordinate) makes the whole cache load
return the empty list instead of skipping just that record; and consequently
every station of a successfully loaded cache has a coordinate, so the
coordinate-skip branch of the corridor filter never fires for loaded
caches. -/
theorem c10_mandatory_coordinate_and_allornothing_load
    (r : StationRecord) (loc : Location) (rBad : StationRecord)
    (pre post : List StationRecord) (data : Option (List StationRecord)) :
    (parseLocation r = some loc → loc.coordinate.isSome = true) ∧
    (parseLocation rBad = none →
      read_covered_stations (some (pre ++ rBad :: post)) = []) ∧
    (∀ s ∈ read_covered_stations data, s.coordinate.isSome = true) := by
  refine ⟨parseLocation_coord_isSome r loc, ?_, ?_⟩
  · intro h
    rw [read_covered_stations, parseAll_fails rBad pre post h]
  · cases data with
    | none =>
      intro s hs
      exact absurd hs (List.not_mem_nil s)
    | some records =>
      rw [read_covered_stations]
      cases hp : parseAll records with
      | none =>
        intro s hs
        exact absurd hs (List.not_mem_nil s)
      | some locs => exact parseAll_coords records locs hp

/-- Witness for C10 at concrete inputs: a record with a coordinate validates
to a Location whose coordinate is present, and a single record lacking a
coordinate makes the whole load of a two-record cache return []. -/
theorem c10_witness :
    (Location.mk 1 "Konstanz" none (some ⟨"WGS84", 47, 9⟩) none none).coordinate.isSome
      = true ∧
    read_covered_stations
      (some [⟨1, "Konstanz", some ⟨"WGS84", 47, 9⟩⟩, ⟨2, "Bregenz", none⟩]) = [] :=
  ⟨(c10_mandatory_coordinate_and_allornothing_load ⟨1, "Konstanz", some ⟨"WGS84", 47, 9⟩⟩
      (Location.mk 1 "Konstanz" none (some ⟨"WGS84", 47, 9⟩) none none) ⟨2, "Bregenz", none⟩
      [] [] none).1 rfl,
   (c10_mandatory_coordinate_and_allornothing_load ⟨1, "Konstanz", some ⟨"WGS84", 47, 9⟩⟩
      (Location.mk 1 "Konstanz" none (some ⟨"WGS84", 47, 9⟩) none none) ⟨2, "Bregenz", none⟩
      [⟨1, "Konstanz", some ⟨"WGS84", 47, 9⟩⟩] [] none).2.1 rfl⟩

/-- Origin coordinate for the C2 scenario. -/
noncomputable def ocC2 : Coordinates := ⟨"WGS84", 47, 8⟩

/-- Destination coordinate for the C2 scenario. -/
noncomputable def dcC2 : Coordinates := ⟨"WGS84", 46, 7⟩

/-- First cached candidate of the C2 scenario; its coordinate equals the
destination's, so its angular deviation is 0 and it passes the corridor
filter. -/
noncomputable def s1C2 : Location := ⟨10, "S1", none, some dcC2, none, none⟩

/-- Second cached candidate of the C2 scenario, likewise on the
destination's coordinate. -/
noncomputable def s2C2 : Location := ⟨11, "S2", none, some dcC2, none, none⟩

/-- The connection the API would return for the second candidate. -/
noncomputable def connC2 : Connection :=
  ⟨⟨⟨12, "O", none, some ocC2, none, none⟩, 0, none, "1"⟩,
   ⟨s2C2, 0, none, none⟩, 3600⟩

/-- A fallible API client whose probe for the first candidate raises a
network failure while the probe for the second candidate succeeds. -/
noncomputable def apiC2 : String → String → Except ApiError (Option Connection) :=
  fun _ station_name =>
    if station_name = "S1" then
      Except.error (ApiError.network NetworkFailure.retriesExhausted)
    else Except.ok (some connC2)

/-- C2 is false on the code: the probe loop of
get_intermediate_connections_by_bearing has no exception handling, so when
the probe of the first kept candidate raises, the whole corridor search
surfaces that failure and discards the connection the second candidate's
probe would have returned (the same client answers ok for it). -/
theorem c2_counterexample :
    get_intermediate_connections_by_bearing_exc apiC2 "O" ocC2 dcC2 [s1C2, s2C2] =
      Except.error (ApiError.network NetworkFailure.retriesExhausted) ∧
    apiC2 "O" s2C2.name = Except.ok (some connC2) := by
  have h20 : angular_deviation ocC2 dcC2 dcC2 ≤ 20 := by
    rw [angular_deviation_self]
    norm_num
  have hc1 : s1C2.coordinate = some dcC2 := rfl
  have hc2 : s2C2.coordinate = some dcC2 := rfl
  have hcs : connection_stations ocC2 dcC2 [s1C2, s2C2] = [s1C2, s2C2] := by
    simp only [connection_stations, hc1, hc2]
    rw [if_pos h20, if_pos h20]
  constructor
  · rw [get_intermediate_connections_by_bearing_exc, hcs]
    rfl
  · rfl

/-- C2 amended: a failure of one per-candidate connection probe is not
isolated; the exception propagates out of the probe loop immediately, the
remaining candidates are never probed, and the corridor search surfaces the
failure instead of the other candidates' connections. -/
theorem c2_amended_probe_failure_propagates
    (api : String → String → Except ApiError (Option Connection))
    (origin_name : String) (station : Location) (rest : List Location)
    (e : ApiError) (oc dc : Coordinates) (covered : List Location) :
    (api origin_name station.name = Except.error e →
      probe_connections_exc api origin_name (station :: rest) = Except.error e) ∧
    get_intermediate_connections_by_bearing_exc api origin_name oc dc covered =
      probe_connections_exc api origin_name (connection_stations oc dc covered) := by
  constructor
  · intro h
    simp [probe_connections_exc, h]
  · rfl

/-- Witness for the amended C2 at a concrete input: an always-failing client
makes the probe loop surface the failure from the first candidate. -/
theorem c2_amended_witness :
    probe_connections_exc (fun _ _ => Except.error ApiError.parseError) "O"
      [⟨1, "S", none, none, none, none⟩] = Except.error ApiError.parseError :=
  (c2_amended_probe_failure_propagates (fun _ _ => Except.error ApiError.parseError)
    "O" ⟨1, "S", none, none, none, none⟩ [] ApiError.parseError
    ⟨"WGS84", 0, 0⟩ ⟨"WGS84", 0, 0⟩ []).1 rfl

/-- C7 is false on the code as an "exactly when": with a positive total
distance and a covered distance of 0 the computed percentage is 0 although
the total distance is not 0. -/
theorem c7_counterexample : percentageOf 0 1 = 0 ∧ (1 : ℝ) ≠ 0 := by
  constructor
  · rw [percentageOf, if_pos (by norm_num : (1 : ℝ) > 0)]
    norm_num
  · norm_num

/-- C7 amended: the coverage percentage equals covered/total*100 whenever
the total distance is positive, and it is 0 when the total distance is 0
(but not only then: it is also 0 whenever the covered distance is 0). -/
theorem c7_amended_percentage (covered_distance total_distance : ℝ) :
    (total_distance > 0 →
      percentageOf covered_distance total_distance =
        covered_distance / total_distance * 100) ∧
    (total_distance = 0 → percentageOf covered_distance total_distance = 0) := by
  constructor
  · intro h
    rw [percentageOf, if_pos h]
  · intro h
    rw [percentageOf, if_neg]
    rw [h]
    norm_num

/-- Witness for the amended C7 at concrete inputs: a positive total distance
uses the ratio formula and a zero total distance yields 0. -/
theorem c7_witness :
    ((2 : ℝ) > 0 ∧ percentageOf 3 2 = 3 / 2 * 100) ∧ percentageOf 3 0 = 0 :=
  ⟨⟨by norm_num, (c7_amended_percentage 3 2).1 (by norm_num)⟩,
   (c7_amended_percentage 3 0).2 rfl⟩

/-- Geodesic oracle for the C6 scenario (origin and destination at zero
total distance). -/
noncomputable def geodesicC6 : Coordinates → Coordinates → ℝ := fun _ _ => 0

/-- Intermediate station of the C6 scenario. -/
noncomputable def stC6 : Location := ⟨20, "Konstanz", none, some ⟨"WGS84", 47, 9⟩, none, none⟩

/-- Origin of the C6 scenario. -/
noncomputable def oC6 : Location := ⟨1, "Zuerich HB", none, some ⟨"WGS84", 47, 8⟩, none, none⟩

/-- Destination of the C6 scenario. -/
noncomputable def dC6 : Location := ⟨2, "Stuttgart", none, some ⟨"WGS84", 48, 9⟩, none, none⟩

/-- The intermediate connection displayed in the C6 scenario. -/
noncomputable def connC6 : Connection := ⟨⟨oC6, 0, none, "7"⟩, ⟨stC6, 0, none, none⟩, 3600⟩

/-- C6 is false on the code: an intermediate option rendered with a total
distance of 0 does get a next-step line, but its block contains no coverage
line at all, because the coverage print is guarded by total_distance > 0. -/
theorem c6_counterexample :
    ((display_connection_option geodesicC6 (fun _ => none) connC6 1 oC6 dC6 0 false).any
        isNextStepLine = true) ∧
    ((display_connection_option geodesicC6 (fun _ => none) connC6 1 oC6 dC6 0 false).all
        (fun l => !(isCoverageLine l)) = true) := by
  constructor <;>
    simp [display_connection_option, isCoverageLine, isNextStepLine, geodesicC6,
      connC6, oC6, dC6, stC6]

/-- C6 amended: a direct option's block contains no coverage line and no
next-step line; an intermediate option's block always contains a next-step
line, which names the provider exactly when the provider lookup returns one
and is the explicit provider-lookup-failed line exactly when the lookup
returns nothing; and an intermediate block contains a coverage line exactly
when the total origin-to-destination distance is positive. -/
theorem c6_amended_direct_and_intermediate_blocks
    (geodesic : Coordinates → Coordinates → ℝ)
    (get_local_provider : Location → Option Provider) (conn : Connection)
    (option_index : Nat) (origin_obj destination_obj : Location)
    (total_distance : ℝ) :
    ((display_connection_option geodesic get_local_provider conn option_index
        origin_obj destination_obj total_distance true).all
      (fun l => !(isCoverageLine l) && !(isNextStepLine l)) = true) ∧
    ((display_connection_option geodesic get_local_provider conn option_index
        origin_obj destination_obj total_distance false).any isNextStepLine = true) ∧
    (((display_connection_option geodesic get_local_provider conn option_index
        origin_obj destination_obj total_distance false).any isCoverageLine = true) ↔
      total_distance > 0) ∧
    (((display_connection_option geodesic get_local_provider conn option_index
        origin_obj destination_obj total_distance false).any isProviderLine = true) ↔
      (get_local_provider conn.to.station).isSome = true) ∧
    (((display_connection_option geodesic get_local_provider conn option_index
        origin_obj destination_obj total_distance false).any isProviderFailedLine
        = true) ↔ get_local_provider conn.to.station = none) := by
  cases hglp : get_local_provider conn.to.station with
  | none =>
    by_cases ht : total_distance > 0 <;>
      simp [display_connection_option, hglp, ht, isCoverageLine, isNextStepLine,
        isProviderLine, isProviderFailedLine]
  | some p =>
    by_cases ht : total_distance > 0 <;>
      simp [display_connection_option, hglp, ht, isCoverageLine, isNextStepLine,
        isProviderLine, isProviderFailedLine]

/-- C9 is false on the code: with an empty reachable-station cache the
session aborts up front with the cannot-proceed data-error message, before
any prompt or search; the explicit no-suitable-connection message is never
printed in that run (it belongs to the nonempty-cache, no-direct-connection,
empty-corridor path). -/
theorem c9_counterexample :
    execute (fun _ => none) (fun _ => none) (fun _ _ => none) (fun _ => none)
        (fun _ _ => 0) [] "A" "B" = [OutputEvent.cannotProceed] ∧
    OutputEvent.noSuitableIntermediate ∉
      execute (fun _ => none) (fun _ => none) (fun _ _ => none) (fun _ => none)
        (fun _ _ => 0) [] "A" "B" := by
  refine ⟨rfl, ?_⟩
  intro h
  rw [show execute (fun _ => none) (fun _ => none) (fun _ _ => none) (fun _ => none)
      (fun _ _ => 0) [] "A" "B" = [OutputEvent.cannotProceed] from rfl] at h
  simp at h

/-- C9 amended: the corridor search over an empty candidate cache returns
the empty list, but in that run the session never reaches it: execute aborts
immediately with the explicit cannot-proceed data-error message (so output
is never silently empty).  The explicit no-suitable-connection message is
printed on the runs with a nonempty cache in which no direct connection
exists and the corridor search comes back empty. -/
theorem c9_amended_empty_cache_aborts_before_search
    (api : String → String → Option Connection)
    (get_location : String → Option Location) (geocode : String → Option GeoPoint)
    (get_local_provider : Location → Option Provider)
    (geodesic : Coordinates → Coordinates → ℝ)
    (origin_name destination_name : String) (s : Location) (rest : List Location)
    (origin_obj destination_obj : Location) (oc dc : Coordinates) :
    (get_intermediate_connections_by_bearing api origin_name oc dc [] = []) ∧
    (execute get_location geocode api get_local_provider geodesic []
        origin_name destination_name = [OutputEvent.cannotProceed]) ∧
    (get_location origin_name = some origin_obj →
      get_location destination_name = some destination_obj →
      api origin_obj.name destination_name = none →
      origin_obj.coordinate = some oc → destination_obj.coordinate = some dc →
      get_intermediate_connections_by_bearing api origin_obj.name oc dc (s :: rest)
        = [] →
      OutputEvent.noSuitableIntermediate ∈
        execute get_location geocode api get_local_provider geodesic (s :: rest)
          origin_name destination_name) := by
  refine ⟨rfl, rfl, ?_⟩
  intro h1 h2 h3 hoc hdc h4
  simp only [execute, h1, h2, search_and_present, h3, hoc, hdc, h4]
  simp

/-- Origin object for the C9 witness run. -/
noncomputable def oobjW : Location := ⟨1, "Zuerich HB", none, some ⟨"WGS84", 47, 8⟩, none, none⟩

/-- Destination object for the C9 witness run. -/
noncomputable def dobjW : Location := ⟨2, "Lyon", none, some ⟨"WGS84", 45, 4⟩, none, none⟩

/-- The single cached station of the C9 witness run; its coordinate is
absent, so the corridor filter keeps nothing. -/
def sW : Location := ⟨3, "S", none, none, none, none⟩

/-- Location oracle for the C9 witness run. -/
noncomputable def glW : String → Option Location :=
  fun q => if q = "O" then some oobjW else some dobjW

/-- Witness for the amended C9 at a concrete input: a nonempty cache whose
single station is kept by neither filter branch, no direct connection, and
an empty corridor result make the session print the explicit
no-suitable-connection message. -/
theorem c9_witness :
    OutputEvent.noSuitableIntermediate ∈
      execute glW (fun _ => none) (fun _ _ => none) (fun _ => none) (fun _ _ => 0)
        [sW] "O" "D" :=
  (c9_amended_empty_cache_aborts_before_search (fun _ _ => none) glW (fun _ => none)
    (fun _ => none) (fun _ _ => 0) "O" "D" sW [] oobjW dobjW
    ⟨"WGS84", 47, 8⟩ ⟨"WGS84", 45, 4⟩).2.2 rfl rfl rfl rfl rfl rfl
